import Mathlib

/-!
Verification development for the Go-Framebuffer-Console repository.

The definitions below are a shallow embedding of the Go sources:
- `pkg/framebuffer/framebuffer.go` (pixel engine: SetPixel, DrawImage, Clear,
  Close, mapMemory),
- `pkg/input` (raw-terminal keyboard driver: NewKeyboardInput, setRawMode,
  ReadKeyNonBlocking, ReadKeyNonBlockingWithTimeout),
- `pkg/menu` (differential menu renderer: RenderMainMenu, InvalidateCache),
- `cmd/main` (orchestrator: handleControlKey, the Run key dispatch, and the
  enterConfigMenu wait loop, in both of its source variants).

Go machine integers are modelled as Nat (for unsigned quantities and
quantities that are provably non-negative in the source) and Int (for Go
`int` coordinates that may be negative).  Byte stores truncate with `% 256`
exactly where Go converts to `byte`.  Syscall outcomes (ioctl, mmap, select,
read, write) are passed in explicitly as "world" parameters so that the pure
control flow of each Go function is preserved.
-/

namespace GoFbConsole

/-! ## Framebuffer data model (framebuffer.go) -/

/-- The four channel values returned by Go's `color.Color.RGBA()`:
alpha-premultiplied 16-bit components, each in [0, 0xFFFF]. -/
structure GoColor where
  r : Nat
  g : Nat
  b : Nat
  a : Nat
deriving DecidableEq, Repr

/-- The `FrameBuffer` struct: the mapped byte region (`fbData`, `none`
models a nil slice), the derived `width`/`height`/`bpp` (from the uint32
fields of the var screen info, hence Nat), the fixed screen info's
`LineLength`, the `closed` flag, and whether the device file is non-nil. -/
structure FrameBuffer where
  fbData : Option (List Nat)
  width : Nat
  height : Nat
  bpp : Nat
  lineLength : Nat
  closed : Bool
  deviceOpen : Bool
deriving DecidableEq, Repr

/-- Body shared by `SetPixel` and `setPixelUnsafe` in the source: bounds
check, channel extraction (`r >>= 8` etc.), offset computation
`y*LineLength + x*(bpp/8)`, the buffer-length guard, and the per-depth
switch.  Returns the updated byte list. -/
def setPixelBytes (width height bpp lineLength : Nat) (data : List Nat)
    (x y : Int) (c : GoColor) : List Nat :=
  if x < 0 ∨ (width : Int) ≤ x ∨ y < 0 ∨ (height : Int) ≤ y then data
  else
    let r := c.r >>> 8
    let g := c.g >>> 8
    let b := c.b >>> 8
    let bytesPerPixel : Nat := bpp / 8
    let offset : Int := y * (lineLength : Int) + x * (bytesPerPixel : Int)
    if offset < 0 ∨ (data.length : Int) < offset + (bytesPerPixel : Int) then data
    else
      let o := offset.toNat
      if bpp = 16 then
        let pixel := (((r &&& 0xF8) <<< 8) ||| ((g &&& 0xFC) <<< 3) ||| ((b &&& 0xF8) >>> 3)) % 65536
        (data.set o (pixel % 256)).set (o + 1) ((pixel >>> 8) % 256)
      else if bpp = 24 then
        ((data.set o (b % 256)).set (o + 1) (g % 256)).set (o + 2) (r % 256)
      else if bpp = 32 then
        (((data.set o (b % 256)).set (o + 1) (g % 256)).set (o + 2) (r % 256)).set (o + 3) 0
      else data

/-- `FrameBuffer.SetPixel`: no-op when closed or the mapping is nil,
otherwise writes through `setPixelBytes`. -/
def FrameBuffer.SetPixel (fb : FrameBuffer) (x y : Int) (c : GoColor) : FrameBuffer :=
  if fb.closed then fb
  else
    match fb.fbData with
    | none => fb
    | some data =>
      { fb with fbData := some (setPixelBytes fb.width fb.height fb.bpp fb.lineLength data x y c) }

/-- A Go `image.Image` as used by `DrawImage`: its bounds rectangle and its
`At` color function. -/
structure GoImage where
  minX : Int
  minY : Int
  maxX : Int
  maxY : Int
  pixAt : Int → Int → GoColor

/-- The clipped double loop of `DrawImage`: `py` from `startY` to `endY-1`
(outer), `px` from `startX` to `endX-1` (inner), each pixel written through
the shared per-format encode path (`setPixelUnsafe` = `setPixelBytes`). -/
def drawImageBytes (width height bpp lineLength : Nat) (img : GoImage)
    (x y : Int) (data : List Nat) : List Nat :=
  let startX := max 0 x
  let startY := max 0 y
  let endX := min (width : Int) (x + (img.maxX - img.minX))
  let endY := min (height : Int) (y + (img.maxY - img.minY))
  (List.range (endY - startY).toNat).foldl
    (fun acc (i : Nat) =>
      let py := startY + (i : Int)
      (List.range (endX - startX).toNat).foldl
        (fun acc2 (j : Nat) =>
          let px := startX + (j : Int)
          let srcX := img.minX + (px - x)
          let srcY := img.minY + (py - y)
          setPixelBytes width height bpp lineLength acc2 px py (img.pixAt srcX srcY))
        acc)
    data

/-- `FrameBuffer.DrawImage`: no-op when closed or the mapping is nil,
otherwise runs the clipped pixel-copy loop. -/
def FrameBuffer.DrawImage (fb : FrameBuffer) (img : GoImage) (x y : Int) : FrameBuffer :=
  if fb.closed then fb
  else
    match fb.fbData with
    | none => fb
    | some data =>
      { fb with fbData := some (drawImageBytes fb.width fb.height fb.bpp fb.lineLength img x y data) }

/-- `FrameBuffer.Clear`: no-op when closed or the mapping is nil, otherwise
zero-fills the whole mapped region. -/
def FrameBuffer.Clear (fb : FrameBuffer) : FrameBuffer :=
  if fb.closed then fb
  else
    match fb.fbData with
    | none => fb
    | some data => { fb with fbData := some (data.map fun _ => 0) }

/-! ## Close and mapMemory (framebuffer.go) -/

/-- The externally visible steps `Close` performs, in order. -/
inductive CloseStep
  | munmapData
  | closeDevice
deriving DecidableEq, Repr

/-- Outcomes of the two syscalls `Close` may perform. -/
structure CloseWorld where
  munmapOk : Bool
  closeOk : Bool
deriving DecidableEq, Repr

/-- The error values `Close` can aggregate (munmap failure, device-close
failure, or both concatenated into one message). -/
inductive CloseError
  | munmapFailed
  | closeFailed
  | bothFailed
deriving DecidableEq, Repr

/-- `FrameBuffer.Close`: returns `nil` immediately when already closed;
otherwise unmaps (when the mapping is non-nil) and then closes the device
(when non-nil), aggregating errors, and sets `closed`.  The result carries
the new state, the returned error, and the ordered list of steps taken. -/
def FrameBuffer.Close (fb : FrameBuffer) (w : CloseWorld) :
    FrameBuffer × Option CloseError × List CloseStep :=
  if fb.closed then (fb, none, [])
  else
    let unmapErr : Option CloseError :=
      match fb.fbData with
      | some _ => if w.munmapOk then none else some CloseError.munmapFailed
      | none => none
    let unmapSteps : List CloseStep :=
      match fb.fbData with
      | some _ => [CloseStep.munmapData]
      | none => []
    let closeErr : Option CloseError :=
      if fb.deviceOpen then (if w.closeOk then none else some CloseError.closeFailed) else none
    let closeSteps : List CloseStep :=
      if fb.deviceOpen then [CloseStep.closeDevice] else []
    let err : Option CloseError :=
      match unmapErr, closeErr with
      | some _, some _ => some CloseError.bothFailed
      | some e, none => some e
      | none, some e => some e
      | none, none => none
    ({ fb with fbData := none, deviceOpen := false, closed := true },
     err, unmapSteps ++ closeSteps)

/-- Outcome of the `syscall.Mmap` call: `none` models a failed mmap, `some
bytes` the returned mapped slice. -/
structure MmapWorld where
  mmapResult : Option (List Nat)

/-- Result of `mapMemory`: whether an mmap was attempted, the resulting
mapping (if established), and whether an error was returned. -/
structure MapMemoryResult where
  attemptedMmap : Bool
  fbData : Option (List Nat)
  isError : Bool

/-- `mapMemory`: `screenSize := int(fb.screenInfo.SmemLen)` (SmemLen is a
uint32, so `smemLen : Nat`); sizes outside `0 < size ≤ 1024*1024*1024` are
rejected before any mmap; a successful mmap whose length disagrees with the
requested size is unmapped and rejected. -/
def mapMemory (smemLen : Nat) (w : MmapWorld) : MapMemoryResult :=
  let screenSize : Int := (smemLen : Int)
  if screenSize ≤ 0 ∨ 1024 * 1024 * 1024 < screenSize then
    { attemptedMmap := false, fbData := none, isError := true }
  else
    match w.mmapResult with
    | none => { attemptedMmap := true, fbData := none, isError := true }
    | some bytes =>
      if (bytes.length : Int) ≠ screenSize then
        { attemptedMmap := true, fbData := none, isError := true }
      else
        { attemptedMmap := true, fbData := some bytes, isError := false }

/-! ## Raw-terminal keyboard driver (pkg/input) -/

/-- The termios fields the driver touches: local flags, input flags, and the
VMIN/VTIME control characters (all uint32/uint8 in Go, modelled as Nat). -/
structure Termios where
  lflag : Nat
  iflag : Nat
  vmin : Nat
  vtime : Nat
deriving DecidableEq, Repr

def ICANON : Nat := 2
def ECHO : Nat := 8
def ECHOE : Nat := 16
def ECHOK : Nat := 32
def ECHONL : Nat := 64
def ECHOPRT : Nat := 1024
def ECHOKE : Nat := 2048
def ICRNL : Nat := 256
def IXON : Nat := 1024
def IXOFF : Nat := 4096
def IXANY : Nat := 2048

/-- Go's `flags &^= mask` on a uint32: AND with the 32-bit complement. -/
def andNotMask (flags mask : Nat) : Nat := flags &&& (4294967295 ^^^ mask)

/-- The modified attribute set `setRawMode` applies: clears the canonical/
echo flags (and ICRNL) from Lflag, the flow-control flags from Iflag, and
sets VMIN=1, VTIME=0. -/
def rawModeTermios (t : Termios) : Termios :=
  { lflag := andNotMask t.lflag (ICANON ||| ECHO ||| ECHOE ||| ECHOK ||| ECHONL ||| ECHOPRT ||| ECHOKE ||| ICRNL)
    iflag := andNotMask t.iflag (IXON ||| IXOFF ||| IXANY)
    vmin := 1
    vtime := 0 }

/-- Outcomes of the five fallible operations `NewKeyboardInput`/`setRawMode`
perform, in program order: open /dev/stdin, open /dev/tty, the TCGETS ioctl,
the TCSETS ioctl, and the cursor-hide escape write. -/
structure KbWorld where
  stdinOpenOk : Bool
  ttyOpenOk : Bool
  tcgetsOk : Bool
  tcsetsOk : Bool
  hideCursorOk : Bool
deriving DecidableEq, Repr

/-- The distinct failure points of `NewKeyboardInput`. -/
inductive KbInitError
  | openStdinFailed
  | getAttrFailed
  | setAttrFailed
  | hideCursorFailed
deriving DecidableEq, Repr

/-- `NewKeyboardInput` composed with `setRawMode`, tracking the terminal's
attribute state: a /dev/tty open failure is non-fatal (falls back to
stdout); a TCGETS or TCSETS failure returns before/without changing the
attributes (a failed TCSETS is modelled as applying nothing); a cursor-hide
write failure is returned as an error AFTER the raw attributes have been
applied, and no restore happens on that path.  Returns the call result and
the terminal attributes after the call. -/
def NewKeyboardInput (w : KbWorld) (term : Termios) :
    Except KbInitError Unit × Termios :=
  if ¬ w.stdinOpenOk then (Except.error KbInitError.openStdinFailed, term)
  else if ¬ w.tcgetsOk then (Except.error KbInitError.getAttrFailed, term)
  else if ¬ w.tcsetsOk then (Except.error KbInitError.setAttrFailed, term)
  else if ¬ w.hideCursorOk then (Except.error KbInitError.hideCursorFailed, rawModeTermios term)
  else (Except.ok (), rawModeTermios term)

/-- The fields of the keyboard state the non-blocking reads consult. -/
structure KbState where
  closed : Bool
  deviceNil : Bool
  fdNonNeg : Bool
deriving DecidableEq, Repr

/-- Outcome of the `syscall.Select` readiness check. -/
inductive SelectOutcome
  | ready (n : Nat)
  | eintr
  | otherError
deriving DecidableEq, Repr

/-- Outcome of the subsequent one-byte `Read`. -/
inductive ReadAttempt
  | ok (b : Nat)
  | zero
  | failed
deriving DecidableEq, Repr

/-- The error identities a non-blocking read can return. -/
inductive KbReadError
  | deviceClosed
  | badFd
  | selectFailed
  | readFailed
deriving DecidableEq, Repr

/-- The `(byte, bool, error)` triple returned by the non-blocking reads. -/
structure ReadKeyResult where
  key : Nat
  available : Bool
  err : Option KbReadError
deriving DecidableEq, Repr

/-- `ReadKeyNonBlocking` (zero-timeout polling variant): any `Select` error,
EINTR included, is returned as a select failure. -/
def ReadKeyNonBlocking (st : KbState) (sel : SelectOutcome) (rd : ReadAttempt) :
    ReadKeyResult :=
  if st.closed ∨ st.deviceNil then ⟨0, false, some KbReadError.deviceClosed⟩
  else if ¬ st.fdNonNeg then ⟨0, false, some KbReadError.badFd⟩
  else
    match sel with
    | SelectOutcome.eintr => ⟨0, false, some KbReadError.selectFailed⟩
    | SelectOutcome.otherError => ⟨0, false, some KbReadError.selectFailed⟩
    | SelectOutcome.ready n =>
      if n = 0 then ⟨0, false, none⟩
      else
        match rd with
        | ReadAttempt.failed => ⟨0, false, some KbReadError.readFailed⟩
        | ReadAttempt.zero => ⟨0, false, none⟩
        | ReadAttempt.ok b => ⟨b, true, none⟩

/-- `ReadKeyNonBlockingWithTimeout` (caller-supplied-timeout variant): a
`Select` interrupted by EINTR is treated as "no data available" with no
error; other select errors are returned as failures. -/
def ReadKeyNonBlockingWithTimeout (st : KbState) (sel : SelectOutcome)
    (rd : ReadAttempt) : ReadKeyResult :=
  if st.closed ∨ st.deviceNil then ⟨0, false, some KbReadError.deviceClosed⟩
  else if ¬ st.fdNonNeg then ⟨0, false, some KbReadError.badFd⟩
  else
    match sel with
    | SelectOutcome.eintr => ⟨0, false, none⟩
    | SelectOutcome.otherError => ⟨0, false, some KbReadError.selectFailed⟩
    | SelectOutcome.ready n =>
      if n = 0 then ⟨0, false, none⟩
      else
        match rd with
        | ReadAttempt.failed => ⟨0, false, some KbReadError.readFailed⟩
        | ReadAttempt.zero => ⟨0, false, none⟩
        | ReadAttempt.ok b => ⟨b, true, none⟩

/-! ## Differential menu renderer (pkg/menu, part_006 variant) -/

/-- The system-info snapshot fields formatted into the main screen. -/
structure SystemInfo where
  uptime : String
  cpuModel : String
  cpuCores : Nat
  memoryUsage : String
  diskSize : String
  diskCount : Nat
  currentTime : String
  ipAddress : String
  qianKunCloudID : String
deriving DecidableEq, Repr

/-- `generateNewMainMenuContent`: the content fingerprint, a "|"-joined
rendering of the formatted fields (Go `fmt.Sprintf` with "%s|%s|%d|..."). -/
def generateNewMainMenuContent (si : SystemInfo) : String :=
  si.uptime ++ "|" ++ si.cpuModel ++ "|" ++ toString si.cpuCores ++ "|" ++
  si.memoryUsage ++ "|" ++ si.diskSize ++ "|" ++ toString si.diskCount ++ "|" ++
  si.currentTime ++ "|" ++ si.ipAddress ++ "|" ++ si.qianKunCloudID

/-- The two kinds of framebuffer device writes the renderer issues:
`fb.Clear()` and `fb.DrawImage(...)`. -/
inductive DevWrite
  | clearAll
  | drawImg
deriving DecidableEq, Repr

/-- The paint-cache fields of `MenuRenderer` relevant to the skip logic. -/
structure MenuRenderer where
  lastContent : String
  needsClear : Bool
  staticRendered : Bool
deriving DecidableEq, Repr

/-- `renderTextAt`: empty lines are not rendered; a non-empty line becomes
one `DrawImage` call (text rasterization, an external capability, is
modelled as succeeding). -/
def renderTextAtWrites (text : String) : List DevWrite :=
  if text = "" then [] else [DevWrite.drawImg]

/-- `renderQRCode`: one `DrawImage` for the header line and one for the QR
bitmap (`qr.Encode` modelled as succeeding). -/
def renderQRCodeWrites : List DevWrite :=
  [DevWrite.drawImg, DevWrite.drawImg]

/-- The `DrawImage` calls `renderNewMainMenu` issues, line by line, in
source order (empty lines are skipped by `renderTextAt`). -/
def renderNewMainMenuWrites (si : SystemInfo) : List DevWrite :=
  renderTextAtWrites "系统信息"
  ++ renderTextAtWrites "================================"
  ++ renderTextAtWrites ("操作系统运行时间：" ++ si.uptime)
  ++ renderTextAtWrites ("处理器型号：" ++ si.cpuModel ++ " *" ++ toString si.cpuCores ++ " 核")
  ++ renderTextAtWrites ("内存使用状态：" ++ si.memoryUsage)
  ++ renderTextAtWrites ("系统安装磁盘大小：" ++ si.diskSize ++ "（共" ++ toString si.diskCount ++ "个磁盘）")
  ++ renderTextAtWrites ("当前系统时间：" ++ si.currentTime)
  ++ renderTextAtWrites ("设备IP地址：" ++ si.ipAddress)
  ++ renderTextAtWrites ""
  ++ renderTextAtWrites ("设备ID：" ++ si.qianKunCloudID)
  ++ renderTextAtWrites "================================"
  ++ (if si.qianKunCloudID ≠ "" ∧ si.qianKunCloudID ≠ "未获取到" then renderQRCodeWrites
      else renderTextAtWrites "二维码生成失败：无法获取乾坤云设备ID")
  ++ renderTextAtWrites "==============================="
  ++ renderTextAtWrites "如有问题请咨询技术客服：微信：your-service-wechat"
  ++ renderTextAtWrites ""
  ++ renderTextAtWrites "按回车键进入配置菜单"

/-- `RenderMainMenu`: builds the fingerprint; skips the repaint entirely
(no device writes) when it equals the cached one and the static chrome has
been rendered; otherwise clears the whole device and repaints, then stores
the fingerprint and sets the chrome flag.  Returns the new cache state and
the list of device writes performed. -/
def RenderMainMenu (mr : MenuRenderer) (si : SystemInfo) :
    MenuRenderer × List DevWrite :=
  let currentContent := generateNewMainMenuContent si
  if currentContent = mr.lastContent ∧ mr.staticRendered = true then (mr, [])
  else
    ({ lastContent := currentContent, needsClear := false, staticRendered := true },
     DevWrite.clearAll :: renderNewMainMenuWrites si)

/-- `InvalidateCache`: resets all three cache fields. -/
def InvalidateCache (_mr : MenuRenderer) : MenuRenderer :=
  { lastContent := "", needsClear := true, staticRendered := false }

/-- One periodic-refresh cycle of the orchestrator's `Run` loop (the
`ticker.C` case while running): it first forces the cache invalid and then
renders the main menu. -/
def tickRefresh (mr : MenuRenderer) (si : SystemInfo) :
    MenuRenderer × List DevWrite :=
  RenderMainMenu (InvalidateCache mr) si

/-! ## Orchestrator key handling (cmd/main, the `disableCtrlC` variant) -/

/-- The orchestrator state the control-key paths touch: the exit-disabled
switch, the running flag, whether the cancellation signal has been raised
(`cancel()` called), and a count of informational log entries. -/
structure AppState where
  disableCtrlC : Bool
  running : Bool
  cancelled : Bool
  infoLogs : Nat
deriving DecidableEq, Repr

/-- `log.Printf`: one more informational log entry. -/
def logInfo (a : AppState) : AppState := { a with infoLogs := a.infoLogs + 1 }

/-- `app.cancel()`: raises the shared cancellation signal. -/
def cancelApp (a : AppState) : AppState := { a with cancelled := true }

/-- `handleControlKey`: for each of the four control bytes (3 = Ctrl+C,
26 = Ctrl+Z, 28 = Ctrl+backslash, 4 = Ctrl+D) it logs, and either swallows
the key (exit disabled, returns false) or raises cancellation and returns
true; any other byte is passed through untouched. -/
def handleControlKey (a : AppState) (key : Nat) : AppState × Bool :=
  match key with
  | 3 => if a.disableCtrlC then (logInfo a, false) else (cancelApp (logInfo a), true)
  | 26 => if a.disableCtrlC then (logInfo a, false) else (cancelApp (logInfo a), true)
  | 28 => if a.disableCtrlC then (logInfo a, false) else (cancelApp (logInfo a), true)
  | 4 => if a.disableCtrlC then (logInfo a, false) else (cancelApp (logInfo a), true)
  | _ => (a, false)

/-- The key handling of `testNetworkConnectivity`: on the success path the
result page loops routing the byte through `handleControlKey`; on the
failure path (the advanced network test itself returned an error) the page
performs a bare `ReadKey`, discards the byte and returns — no control-key
interception, no log entry, no cancellation.  Returns the state after the
arriving key. -/
def testNetworkConnectivityKey (a : AppState) (testFailed : Bool) (key : Nat) : AppState :=
  if testFailed then a
  else (handleControlKey a key).1

/-- What the main-page key dispatch decides to do besides state changes. -/
inductive RunKeyEffect
  | enterMenu
  | nothing
deriving DecidableEq, Repr

/-- The `case key := <-app.keyEventChan` dispatch of the `Run` loop: keys
are ignored when not running; Enter (10/13) enters the config menu; the
four control bytes log and, unless exit is disabled, raise cancellation. -/
def runLoopKeyCase (a : AppState) (key : Nat) : AppState × RunKeyEffect :=
  if a.running = false then (a, RunKeyEffect.nothing)
  else
    match key with
    | 10 => (a, RunKeyEffect.enterMenu)
    | 13 => (a, RunKeyEffect.enterMenu)
    | 3 => if ¬ a.disableCtrlC then (cancelApp (logInfo a), RunKeyEffect.nothing)
           else (logInfo a, RunKeyEffect.nothing)
    | 26 => if a.disableCtrlC then (logInfo a, RunKeyEffect.nothing)
            else (cancelApp (logInfo a), RunKeyEffect.nothing)
    | 28 => if a.disableCtrlC then (logInfo a, RunKeyEffect.nothing)
            else (cancelApp (logInfo a), RunKeyEffect.nothing)
    | 4 => if a.disableCtrlC then (logInfo a, RunKeyEffect.nothing)
           else (cancelApp (logInfo a), RunKeyEffect.nothing)
    | _ => (a, RunKeyEffect.nothing)

/-! ## The config-menu wait loop (both source variants of enterConfigMenu) -/

/-- Events that can arrive while the config menu waits: a key from the
event relay, the cancellation signal, or the 30-second timer firing. -/
inductive CfgEvent
  | key (b : Nat)
  | ctxDone
  | timerFired
deriving DecidableEq, Repr

/-- How the config-menu wait loop returned. -/
inductive CfgExit
  | quitKey
  | controlExit
  | cancelledExit
  | timedOut
deriving DecidableEq, Repr

/-- The earlier variant of `enterConfigMenu`'s wait loop, whose select has a
`time.After(30 * time.Second)` case: processed over a finite trace of
arriving events; `none` means the trace ended with the loop still waiting.
Digit choices run a submenu and loop back to redisplay the menu (submenu
interaction reads the keyboard directly and is outside this trace). -/
def enterConfigMenuOld : List CfgEvent → Option CfgExit
  | [] => none
  | CfgEvent.ctxDone :: _ => some CfgExit.cancelledExit
  | CfgEvent.timerFired :: _ => some CfgExit.timedOut
  | CfgEvent.key b :: rest =>
    if b = 113 ∨ b = 81 ∨ b = 27 then some CfgExit.quitKey
    else enterConfigMenuOld rest

/-- The later variant of `enterConfigMenu`'s wait loop (the one that calls
`handleControlKey`): its select has NO timer case, so a firing of the
30-second boundary does not wake it — only a key or cancellation does. -/
def enterConfigMenuNew (disableCtrlC : Bool) : List CfgEvent → Option CfgExit
  | [] => none
  | CfgEvent.ctxDone :: _ => some CfgExit.cancelledExit
  | CfgEvent.timerFired :: rest => enterConfigMenuNew disableCtrlC rest
  | CfgEvent.key b :: rest =>
    if (b = 3 ∨ b = 26 ∨ b = 28 ∨ b = 4) ∧ disableCtrlC = false then some CfgExit.controlExit
    else if (b = 3 ∨ b = 26 ∨ b = 28 ∨ b = 4) ∧ disableCtrlC = true then
      enterConfigMenuNew disableCtrlC rest
    else if b = 113 ∨ b = 81 ∨ b = 27 then some CfgExit.quitKey
    else enterConfigMenuNew disableCtrlC rest

/-! ## Helper lemmas -/

/-- Rebuilding a FrameBuffer with its own mapping is the identity. -/
theorem fb_eta (fb : FrameBuffer) (data : List Nat) (h : fb.fbData = some data) :
    { fb with fbData := some data } = fb := by
  cases fb
  simp_all

/-- A fold whose step ignores the element is the identity. -/
theorem foldl_const {α β : Type} (l : List β) (a : α) :
    l.foldl (fun x _ => x) a = a := by
  induction l generalizing a with
  | nil => rfl
  | cons b t ih => exact ih a

/-- On a trace of nothing but timer firings, the later config-menu wait
loop (whose select has no timer case) never returns. -/
theorem enterConfigMenuNew_timer_only (d : Bool) :
    ∀ trace : List CfgEvent, (∀ e ∈ trace, e = CfgEvent.timerFired) →
      enterConfigMenuNew d trace = none := by
  intro trace h
  induction trace with
  | nil => rfl
  | cons e rest ih =>
    have he := h e (List.mem_cons_self e rest)
    subst he
    exact ih fun e2 he2 => h e2 (List.mem_cons_of_mem _ he2)

/-! ## C3: repaint skip logic and the periodic refresh cycle -/

/-- C3 (amended): a `RenderMainMenu` repaint is skipped (zero device
writes) iff the content fingerprint equals the cached one and the static
chrome is already drawn; however, the `Run` loop forces `InvalidateCache`
before every periodic refresh, so a refresh cycle always performs device
writes — even when the system-info snapshot is unchanged. -/
theorem c3_repaint_skip (mr : MenuRenderer) (si : SystemInfo) :
    ((RenderMainMenu mr si).2 = [] ↔
      (generateNewMainMenuContent si = mr.lastContent ∧ mr.staticRendered = true)) ∧
    (tickRefresh mr si).2 ≠ [] := by
  constructor
  · unfold RenderMainMenu
    by_cases h : generateNewMainMenuContent si = mr.lastContent ∧ mr.staticRendered = true
    · simp [h]
    · simp [h]
  · unfold tickRefresh RenderMainMenu InvalidateCache
    simp

/-- C3 witness. -/
theorem c3_witness :
    (tickRefresh ⟨"", true, false⟩ ⟨"u", "c", 1, "m", "d", 1, "t", "i", "q"⟩).2 ≠ [] :=
  (c3_repaint_skip ⟨"", true, false⟩ ⟨"u", "c", 1, "m", "d", 1, "t", "i", "q"⟩).2

/-- C3 (counterexample): starting from the initial renderer cache, two
consecutive periodic refresh cycles with an identical system-info snapshot:
the second cycle still performs device writes (the claim asserts zero). -/
theorem c3_counterexample :
    (tickRefresh
        (tickRefresh ⟨"", true, false⟩ ⟨"1d", "cpu", 4, "50%", "100G", 1, "t0", "1.2.3.4", "id1"⟩).1
        ⟨"1d", "cpu", 4, "50%", "100G", 1, "t0", "1.2.3.4", "id1"⟩).2 ≠ [] := by
  unfold tickRefresh RenderMainMenu InvalidateCache
  simp

/-! ## C4: EINTR handling in the non-blocking reads -/

/-- C4 (amended): for the caller-supplied-timeout variant, a readiness
check interrupted by EINTR yields "no data available" with no error; the
zero-timeout polling variant instead propagates it as a select failure. -/
theorem c4_eintr_handling (st : KbState) (rd : ReadAttempt)
    (hclosed : st.closed = false) (hnil : st.deviceNil = false)
    (hfd : st.fdNonNeg = true) :
    ReadKeyNonBlockingWithTimeout st SelectOutcome.eintr rd = ⟨0, false, none⟩ ∧
    (ReadKeyNonBlocking st SelectOutcome.eintr rd).err = some KbReadError.selectFailed := by
  cases st
  simp_all [ReadKeyNonBlockingWithTimeout, ReadKeyNonBlocking]

/-- C4 witness. -/
theorem c4_witness :
    ReadKeyNonBlockingWithTimeout ⟨false, false, true⟩ SelectOutcome.eintr ReadAttempt.zero =
      ⟨0, false, none⟩ ∧
    (ReadKeyNonBlocking ⟨false, false, true⟩ SelectOutcome.eintr ReadAttempt.zero).err =
      some KbReadError.selectFailed :=
  c4_eintr_handling ⟨false, false, true⟩ ReadAttempt.zero rfl rfl rfl

/-- C4 (counterexample): on an open device, an EINTR-interrupted readiness
check makes the zero-timeout polling variant return an error, not the
claimed "no data available with no error". -/
theorem c4_counterexample :
    (ReadKeyNonBlocking ⟨false, false, true⟩ SelectOutcome.eintr (ReadAttempt.ok 0)).err ≠ none := by
  decide

/-! ## C5: terminal attributes after a failed NewKeyboardInput -/

/-- C5 (amended): if `NewKeyboardInput` fails at the input-device open or
at either terminal-attribute ioctl, the terminal attributes at return are
identical to the attributes before the call; only the cursor-hide write
failure path returns an error with the raw attributes already applied. -/
theorem c5_failed_init_preserves_termios (w : KbWorld) (t : Termios) (e : KbInitError)
    (herr : (NewKeyboardInput w t).1 = Except.error e)
    (hnotcursor : e ≠ KbInitError.hideCursorFailed) :
    (NewKeyboardInput w t).2 = t := by
  rcases w with ⟨so, tt, tg, ts, hc⟩
  cases so <;> cases tg <;> cases ts <;> cases hc <;>
    simp_all [NewKeyboardInput]

/-- C5 witness. -/
theorem c5_witness :
    (NewKeyboardInput ⟨true, true, true, false, true⟩ ⟨2, 1024, 0, 1⟩).2 = ⟨2, 1024, 0, 1⟩ :=
  c5_failed_init_preserves_termios ⟨true, true, true, false, true⟩ ⟨2, 1024, 0, 1⟩
    KbInitError.setAttrFailed rfl (by decide)

/-- C5 (counterexample): with every step succeeding except the cursor-hide
write, `NewKeyboardInput` returns an error yet the terminal attributes at
return differ from the attributes before the call — raw mode is left
applied on this failed startup. -/
theorem c5_counterexample :
    (NewKeyboardInput ⟨true, true, true, true, false⟩ ⟨2, 1024, 0, 1⟩).1 =
      Except.error KbInitError.hideCursorFailed ∧
    (NewKeyboardInput ⟨true, true, true, true, false⟩ ⟨2, 1024, 0, 1⟩).2 ≠ ⟨2, 1024, 0, 1⟩ := by
  constructor
  · rfl
  · intro h
    have : (NewKeyboardInput ⟨true, true, true, true, false⟩ ⟨2, 1024, 0, 1⟩).2.lflag = 0 := by
      decide
    rw [h] at this
    exact absurd this (by decide)

/-! ## C6: control-byte interception under the exit-disabled switch -/

/-- C6 (amended): at every key-read site that routes the byte through
`handleControlKey` (all modal pages and the config menu) and at the
main-page dispatch of the `Run` loop, arrival of any of the control bytes
0x03, 0x1A, 0x1C, 0x04 with exit disabled leaves the cancellation signal
and the running flag unchanged and adds exactly one informational log
entry; with exit enabled, each of these bytes raises the cancellation
signal.  (The error path of `testNetworkConnectivity` is the exception:
its bare `ReadKey` discards the byte — see the counterexample.) -/
theorem c6_control_keys (a : AppState) (key : Nat)
    (hk : key = 3 ∨ key = 26 ∨ key = 28 ∨ key = 4) :
    (a.disableCtrlC = true →
      (handleControlKey a key).1.cancelled = a.cancelled ∧
      (handleControlKey a key).1.running = a.running ∧
      (handleControlKey a key).1.infoLogs = a.infoLogs + 1 ∧
      (handleControlKey a key).2 = false ∧
      (a.running = true →
        (runLoopKeyCase a key).1.cancelled = a.cancelled ∧
        (runLoopKeyCase a key).1.running = a.running ∧
        (runLoopKeyCase a key).1.infoLogs = a.infoLogs + 1)) ∧
    (a.disableCtrlC = false →
      (handleControlKey a key).1.cancelled = true ∧
      (a.running = true → (runLoopKeyCase a key).1.cancelled = true)) := by
  rcases hk with h | h | h | h <;> subst h <;>
    rcases a with ⟨d, r, cls, lg⟩ <;> cases d <;> cases r <;>
      simp [handleControlKey, runLoopKeyCase, logInfo, cancelApp]

/-- C6 witness. -/
theorem c6_witness :
    (handleControlKey ⟨true, true, false, 0⟩ 3).1.cancelled = false ∧
    (handleControlKey ⟨false, true, false, 0⟩ 3).1.cancelled = true :=
  ⟨((c6_control_keys ⟨true, true, false, 0⟩ 3 (Or.inl rfl)).1 rfl).1,
   ((c6_control_keys ⟨false, true, false, 0⟩ 3 (Or.inl rfl)).2 rfl).1⟩

/-- C6 (counterexample): the error path of `testNetworkConnectivity` is a
key-read site where the control byte 0x03 raises no cancellation with the
switch unset and produces no log entry with the switch set — unlike the
success path of the same page, which routes through `handleControlKey`. -/
theorem c6_counterexample :
    (testNetworkConnectivityKey ⟨false, true, false, 0⟩ true 3).cancelled = false ∧
    (testNetworkConnectivityKey ⟨true, true, false, 0⟩ true 3).infoLogs = 0 ∧
    (testNetworkConnectivityKey ⟨false, true, false, 0⟩ false 3).cancelled = true := by
  decide

/-! ## C7: config-menu wait timeout -/

/-- C7 (amended): the earlier variant of the config-menu wait loop returns
to the main screen as soon as its 30-second timer fires; the later variant
(the one with control-key handling) has no timer case in its select, so on
any event trace consisting only of timer firings — no key event and no
cancellation — it is still waiting, however much time passes. -/
theorem c7_config_menu_timeout (rest : List CfgEvent) (d : Bool)
    (trace : List CfgEvent) (h : ∀ e ∈ trace, e = CfgEvent.timerFired) :
    enterConfigMenuOld (CfgEvent.timerFired :: rest) = some CfgExit.timedOut ∧
    enterConfigMenuNew d trace = none :=
  ⟨rfl, enterConfigMenuNew_timer_only d trace h⟩

/-- C7 witness. -/
theorem c7_witness :
    enterConfigMenuOld [CfgEvent.timerFired] = some CfgExit.timedOut ∧
    enterConfigMenuNew false [CfgEvent.timerFired] = none :=
  c7_config_menu_timeout [] false [CfgEvent.timerFired] (by decide)

/-- C7 (counterexample): an event sequence in which the 30-second boundary
passes twice with no key event and no cancellation: the later config-menu
wait loop has not returned (the claim asserts it terminates within its
fixed timeout). -/
theorem c7_counterexample :
    enterConfigMenuNew false [CfgEvent.timerFired, CfgEvent.timerFired] = none ∧
    enterConfigMenuOld [CfgEvent.timerFired, CfgEvent.timerFired] = some CfgExit.timedOut := by
  decide

/-! ## C8: mapMemory size sanity check -/

/-- C8: `mapMemory` rejects a reported screen-memory length that is zero
(the only non-positive value a uint32 can yield) or greater than 1 GiB,
returning an error without attempting any mmap; a mapping is established
only when 0 < length ≤ 1 GiB. -/
theorem c8_mapMemory_sanity (smemLen : Nat) (w : MmapWorld)
    (hw : smemLen < 4294967296) :
    ((smemLen = 0 ∨ 1073741824 < smemLen) →
      (mapMemory smemLen w).isError = true ∧
      (mapMemory smemLen w).attemptedMmap = false) ∧
    (∀ bytes, (mapMemory smemLen w).fbData = some bytes →
      0 < smemLen ∧ smemLen ≤ 1073741824) := by
  constructor
  · intro h
    have hcond : ((smemLen : Int) ≤ 0 ∨ 1024 * 1024 * 1024 < (smemLen : Int)) := by omega
    unfold mapMemory
    rw [if_pos hcond]
    exact ⟨rfl, rfl⟩
  · intro bytes hb
    by_cases hcond : ((smemLen : Int) ≤ 0 ∨ 1024 * 1024 * 1024 < (smemLen : Int))
    · unfold mapMemory at hb
      rw [if_pos hcond] at hb
      exact absurd hb (by simp)
    · omega

/-- C8 witness. -/
theorem c8_witness :
    (mapMemory 0 ⟨none⟩).isError = true ∧ (mapMemory 0 ⟨none⟩).attemptedMmap = false :=
  (c8_mapMemory_sanity 0 ⟨none⟩ (by decide)).1 (Or.inl rfl)

/-! ## C9: Close is idempotent -/

/-- C9: the first `Close` of an open framebuffer with a live mapping and a
non-nil device performs exactly the unmap step followed by the device-close
step and marks the handle closed; any `Close` of an already-closed handle
— in particular the second call — returns no error, performs no step, and
leaves the state unchanged. -/
theorem c9_close_idempotent (fb : FrameBuffer) (w w2 : CloseWorld) (d : List Nat)
    (hclosed : fb.closed = false) (hdata : fb.fbData = some d)
    (hdev : fb.deviceOpen = true) :
    (fb.Close w).2.2 = [CloseStep.munmapData, CloseStep.closeDevice] ∧
    (fb.Close w).1.closed = true ∧ (fb.Close w).1.fbData = none ∧
    (fb.Close w).1.Close w2 = ((fb.Close w).1, none, []) ∧
    (∀ fb2 : FrameBuffer, fb2.closed = true → fb2.Close w2 = (fb2, none, [])) := by
  have hstep : ∀ fb2 : FrameBuffer, fb2.closed = true → fb2.Close w2 = (fb2, none, []) := by
    intro fb2 h2
    unfold FrameBuffer.Close
    rw [if_pos h2]
  have hfst : (fb.Close w).1.closed = true := by
    unfold FrameBuffer.Close
    rw [if_neg (by simp [hclosed])]
  refine ⟨?_, hfst, ?_, hstep _ hfst, hstep⟩
  · unfold FrameBuffer.Close
    rw [if_neg (by simp [hclosed])]
    simp [hdata, hdev]
  · unfold FrameBuffer.Close
    rw [if_neg (by simp [hclosed])]

/-- C9 witness. -/
theorem c9_witness :
    ((⟨some [0], 1, 1, 32, 4, false, true⟩ : FrameBuffer).Close ⟨true, true⟩).2.2 =
      [CloseStep.munmapData, CloseStep.closeDevice] :=
  (c9_close_idempotent ⟨some [0], 1, 1, 32, 4, false, true⟩ ⟨true, true⟩ ⟨true, true⟩ [0]
    rfl rfl rfl).1

/-! ## C2: silent no-ops when closed or out of bounds -/

/-- C2 (amended): after `Close` (closed flag set), `SetPixel`, `DrawImage`
and `Clear` all return with the state untouched; an out-of-bounds
coordinate makes `SetPixel` a silent no-op; `DrawImage` clips the image to
the device bounds and is a no-op when the clipped region is empty — but an
out-of-bounds origin alone does not make it a no-op (see the
counterexample).  All operations are total, so none can fault. -/
theorem c2_noop_safety (fb : FrameBuffer) (x y : Int) (c : GoColor) (img : GoImage) :
    (fb.closed = true →
      fb.SetPixel x y c = fb ∧ fb.DrawImage img x y = fb ∧ fb.Clear = fb) ∧
    ((x < 0 ∨ (fb.width : Int) ≤ x ∨ y < 0 ∨ (fb.height : Int) ≤ y) →
      fb.SetPixel x y c = fb) ∧
    ((min (fb.width : Int) (x + (img.maxX - img.minX)) ≤ max 0 x ∨
      min (fb.height : Int) (y + (img.maxY - img.minY)) ≤ max 0 y) →
      fb.DrawImage img x y = fb) := by
  refine ⟨?_, ?_, ?_⟩
  · intro h
    unfold FrameBuffer.SetPixel FrameBuffer.DrawImage FrameBuffer.Clear
    rw [if_pos h, if_pos h, if_pos h]
    exact ⟨rfl, rfl, rfl⟩
  · intro h
    unfold FrameBuffer.SetPixel
    by_cases hc : fb.closed
    · rw [if_pos hc]
    · rw [if_neg hc]
      cases hd : fb.fbData with
      | none => rfl
      | some data =>
        have hbytes : setPixelBytes fb.width fb.height fb.bpp fb.lineLength data x y c = data := by
          unfold setPixelBytes
          rw [if_pos h]
        show ({ fb with fbData := some (setPixelBytes fb.width fb.height fb.bpp fb.lineLength data x y c) } : FrameBuffer) = fb
        rw [hbytes]
        exact fb_eta fb data hd
  · intro h
    unfold FrameBuffer.DrawImage
    by_cases hc : fb.closed
    · rw [if_pos hc]
    · rw [if_neg hc]
      cases hd : fb.fbData with
      | none => rfl
      | some data =>
        have hbytes : drawImageBytes fb.width fb.height fb.bpp fb.lineLength img x y data
            = data := by
          simp only [drawImageBytes]
          rcases h with h | h
          · have hn : (min (fb.width : Int) (x + (img.maxX - img.minX)) - max 0 x).toNat = 0 := by
              omega
            simp only [hn, List.range_zero, List.foldl_nil]
            exact foldl_const _ _
          · have hn : (min (fb.height : Int) (y + (img.maxY - img.minY)) - max 0 y).toNat = 0 := by
              omega
            simp only [hn, List.range_zero, List.foldl_nil]
        show ({ fb with fbData := some (drawImageBytes fb.width fb.height fb.bpp fb.lineLength img x y data) } : FrameBuffer) = fb
        rw [hbytes]
        exact fb_eta fb data hd

/-- C2 witness. -/
theorem c2_witness :
    (⟨some [1, 2, 3, 4], 1, 1, 32, 4, true, true⟩ : FrameBuffer).SetPixel 0 0 ⟨0, 0, 0, 0⟩ =
      ⟨some [1, 2, 3, 4], 1, 1, 32, 4, true, true⟩ :=
  ((c2_noop_safety ⟨some [1, 2, 3, 4], 1, 1, 32, 4, true, true⟩ 0 0 ⟨0, 0, 0, 0⟩
    ⟨0, 0, 1, 1, fun _ _ => ⟨0, 0, 0, 0⟩⟩).1 rfl).1

/-- C2 (counterexample): on an open 2x2, 32bpp framebuffer, `DrawImage` of
a 2x2 image at the out-of-bounds coordinate (-1,-1) draws the clipped
in-bounds pixel and so changes the mapped buffer — it is not a no-op. -/
theorem c2_counterexample :
    ((-1 : Int) < 0) ∧
    (⟨some (List.replicate 16 7), 2, 2, 32, 8, false, true⟩ : FrameBuffer).DrawImage
        ⟨0, 0, 2, 2, fun _ _ => ⟨0, 0, 0, 0⟩⟩ (-1) (-1) ≠
      ⟨some (List.replicate 16 7), 2, 2, 32, 8, false, true⟩ := by
  refine ⟨by norm_num, ?_⟩
  intro h
  have h2 := congrArg FrameBuffer.fbData h
  simp only [FrameBuffer.DrawImage, drawImageBytes, setPixelBytes] at h2
  revert h2
  decide

/-! ## Reduction and frame lemmas for setPixelBytes -/

/-- `setPixelBytes` never changes the buffer length. -/
theorem setPixelBytes_length (w h bpp ll : Nat) (data : List Nat) (x y : Int)
    (c : GoColor) :
    (setPixelBytes w h bpp ll data x y c).length = data.length := by
  simp only [setPixelBytes]
  split
  · rfl
  · split
    · rfl
    · split
      · simp
      · split
        · simp
        · split
          · simp
          · rfl

/-- For a bit depth that is none of 16/24/32, `setPixelBytes` writes
nothing. -/
theorem setPixelBytes_other (w h bpp ll : Nat) (data : List Nat) (x y : Int)
    (c : GoColor) (h16 : bpp ≠ 16) (h24 : bpp ≠ 24) (h32 : bpp ≠ 32) :
    setPixelBytes w h bpp ll data x y c = data := by
  simp only [setPixelBytes]
  split
  · rfl
  · split
    · rfl
    · simp [h16, h24, h32]

/-- Frame property: any byte outside the `bpp/8` bytes starting at the
pixel's linear offset is untouched. -/
theorem setPixelBytes_frame (w h bpp ll : Nat) (data : List Nat) (xn yn : Nat)
    (c : GoColor) (i : Nat)
    (hi : i < yn * ll + xn * (bpp / 8) ∨ yn * ll + xn * (bpp / 8) + bpp / 8 ≤ i) :
    (setPixelBytes w h bpp ll data (xn : Int) (yn : Int) c)[i]? = data[i]? := by
  simp only [setPixelBytes]
  split
  · rfl
  · split
    · rfl
    · split
      · rw [List.getElem?_set_ne (by omega), List.getElem?_set_ne (by omega)]
      · split
        · rw [List.getElem?_set_ne (by omega), List.getElem?_set_ne (by omega),
            List.getElem?_set_ne (by omega)]
        · split
          · rw [List.getElem?_set_ne (by omega), List.getElem?_set_ne (by omega),
              List.getElem?_set_ne (by omega), List.getElem?_set_ne (by omega)]
          · rfl

/-- Reduction of `setPixelBytes` at 16 bpp for an in-bounds coordinate with
a sufficient buffer. -/
theorem setPixelBytes16 (w h ll : Nat) (data : List Nat) (xn yn : Nat) (c : GoColor)
    (hx : xn < w) (hy : yn < h)
    (hlen : yn * ll + xn * 2 + 2 ≤ data.length) :
    setPixelBytes w h 16 ll data (xn : Int) (yn : Int) c =
      (data.set (yn * ll + xn * 2)
        (((((c.r >>> 8) &&& 0xF8) <<< 8 ||| ((c.g >>> 8) &&& 0xFC) <<< 3 |||
           ((c.b >>> 8) &&& 0xF8) >>> 3) % 65536) % 256)).set
        (yn * ll + xn * 2 + 1)
        ((((((c.r >>> 8) &&& 0xF8) <<< 8 ||| ((c.g >>> 8) &&& 0xFC) <<< 3 |||
           ((c.b >>> 8) &&& 0xF8) >>> 3) % 65536) >>> 8) % 256) := by
  simp only [setPixelBytes]
  rw [if_neg (by omega), if_neg (by push_cast; omega)]
  norm_num
  rw [show ((yn : Int) * (ll : Int) + (xn : Int) * 2).toNat = yn * ll + xn * 2 from by omega]

/-- Reduction of `setPixelBytes` at 24 bpp for an in-bounds coordinate with
a sufficient buffer. -/
theorem setPixelBytes24 (w h ll : Nat) (data : List Nat) (xn yn : Nat) (c : GoColor)
    (hx : xn < w) (hy : yn < h)
    (hlen : yn * ll + xn * 3 + 3 ≤ data.length) :
    setPixelBytes w h 24 ll data (xn : Int) (yn : Int) c =
      ((data.set (yn * ll + xn * 3) ((c.b >>> 8) % 256)).set
        (yn * ll + xn * 3 + 1) ((c.g >>> 8) % 256)).set
        (yn * ll + xn * 3 + 2) ((c.r >>> 8) % 256) := by
  simp only [setPixelBytes]
  rw [if_neg (by omega), if_neg (by push_cast; omega)]
  norm_num
  rw [show ((yn : Int) * (ll : Int) + (xn : Int) * 3).toNat = yn * ll + xn * 3 from by omega]

/-- Reduction of `setPixelBytes` at 32 bpp for an in-bounds coordinate with
a sufficient buffer. -/
theorem setPixelBytes32 (w h ll : Nat) (data : List Nat) (xn yn : Nat) (c : GoColor)
    (hx : xn < w) (hy : yn < h)
    (hlen : yn * ll + xn * 4 + 4 ≤ data.length) :
    setPixelBytes w h 32 ll data (xn : Int) (yn : Int) c =
      (((data.set (yn * ll + xn * 4) ((c.b >>> 8) % 256)).set
        (yn * ll + xn * 4 + 1) ((c.g >>> 8) % 256)).set
        (yn * ll + xn * 4 + 2) ((c.r >>> 8) % 256)).set
        (yn * ll + xn * 4 + 3) 0 := by
  simp only [setPixelBytes]
  rw [if_neg (by omega), if_neg (by push_cast; omega)]
  norm_num
  rw [show ((yn : Int) * (ll : Int) + (xn : Int) * 4).toNat = yn * ll + xn * 4 from by omega]

/-- `SetPixel` on an open framebuffer with a live mapping acts through
`setPixelBytes`. -/
theorem SetPixel_open (fb : FrameBuffer) (data : List Nat) (x y : Int) (c : GoColor)
    (hclosed : fb.closed = false) (hdata : fb.fbData = some data) :
    fb.SetPixel x y c =
      { fb with fbData := some (setPixelBytes fb.width fb.height fb.bpp fb.lineLength data x y c) } := by
  unfold FrameBuffer.SetPixel
  rw [hclosed, hdata]
  rfl

/-! ## C1: SetPixel pixel encoding -/

/-- C1 (amended): for every open framebuffer and in-bounds coordinate
(with the mapped buffer covering the pixel), `SetPixel` writes the pixel at
linear byte offset `y*rowStride + x*bytesPerPixel`: at 16 bpp the RGB565
packing `(r&0xF8)<<8 | (g&0xFC)<<3 | (b&0xF8)>>3` stored low byte first; at
24 bpp the three bytes B,G,R; at 32 bpp the four bytes B,G,R plus an alpha
byte forced to zero (not to opaque — see the counterexample). -/
theorem c1_setPixel_encoding (fb : FrameBuffer) (data : List Nat) (xn yn : Nat)
    (c : GoColor)
    (hclosed : fb.closed = false) (hdata : fb.fbData = some data)
    (hx : xn < fb.width) (hy : yn < fb.height)
    (hcr : c.r < 65536) (hcg : c.g < 65536) (hcb : c.b < 65536)
    (hlen : yn * fb.lineLength + xn * (fb.bpp / 8) + fb.bpp / 8 ≤ data.length) :
    ∃ newData, (fb.SetPixel (xn : Int) (yn : Int) c).fbData = some newData ∧
      (fb.bpp = 16 →
        newData[yn * fb.lineLength + xn * 2]? =
          some ((((c.r >>> 8) &&& 0xF8) <<< 8 ||| ((c.g >>> 8) &&& 0xFC) <<< 3 |||
                 ((c.b >>> 8) &&& 0xF8) >>> 3) % 256) ∧
        newData[yn * fb.lineLength + xn * 2 + 1]? =
          some ((((c.r >>> 8) &&& 0xF8) <<< 8 ||| ((c.g >>> 8) &&& 0xFC) <<< 3 |||
                 ((c.b >>> 8) &&& 0xF8) >>> 3) / 256)) ∧
      (fb.bpp = 24 →
        newData[yn * fb.lineLength + xn * 3]? = some (c.b >>> 8) ∧
        newData[yn * fb.lineLength + xn * 3 + 1]? = some (c.g >>> 8) ∧
        newData[yn * fb.lineLength + xn * 3 + 2]? = some (c.r >>> 8)) ∧
      (fb.bpp = 32 →
        newData[yn * fb.lineLength + xn * 4]? = some (c.b >>> 8) ∧
        newData[yn * fb.lineLength + xn * 4 + 1]? = some (c.g >>> 8) ∧
        newData[yn * fb.lineLength + xn * 4 + 2]? = some (c.r >>> 8) ∧
        newData[yn * fb.lineLength + xn * 4 + 3]? = some 0) := by
  have hr8 : c.r >>> 8 < 256 := by rw [Nat.shiftRight_eq_div_pow]; omega
  have hg8 : c.g >>> 8 < 256 := by rw [Nat.shiftRight_eq_div_pow]; omega
  have hb8 : c.b >>> 8 < 256 := by rw [Nat.shiftRight_eq_div_pow]; omega
  refine ⟨setPixelBytes fb.width fb.height fb.bpp fb.lineLength data (xn : Int) (yn : Int) c,
    ?_, ?_, ?_, ?_⟩
  · rw [SetPixel_open fb data _ _ c hclosed hdata]
  · intro h16
    rw [h16] at hlen ⊢
    rw [setPixelBytes16 fb.width fb.height fb.lineLength data xn yn c hx hy (by omega)]
    have h1 : ((c.r >>> 8) &&& 0xF8) <<< 8 < 65536 := by
      have hle : ((c.r >>> 8) &&& 0xF8) ≤ 0xF8 := Nat.and_le_right
      rw [Nat.shiftLeft_eq]
      omega
    have h2 : ((c.g >>> 8) &&& 0xFC) <<< 3 < 65536 := by
      have hle : ((c.g >>> 8) &&& 0xFC) ≤ 0xFC := Nat.and_le_right
      rw [Nat.shiftLeft_eq]
      omega
    have h3 : ((c.b >>> 8) &&& 0xF8) >>> 3 < 65536 := by
      have hle : ((c.b >>> 8) &&& 0xF8) ≤ 0xF8 := Nat.and_le_right
      rw [Nat.shiftRight_eq_div_pow]
      omega
    have hP : (((c.r >>> 8) &&& 0xF8) <<< 8 ||| ((c.g >>> 8) &&& 0xFC) <<< 3 |||
        ((c.b >>> 8) &&& 0xF8) >>> 3) < 65536 := by
      have e : (65536 : Nat) = 2 ^ 16 := by norm_num
      rw [e] at h1 h2 h3 ⊢
      exact Nat.or_lt_two_pow (Nat.or_lt_two_pow h1 h2) h3
    constructor
    · rw [List.getElem?_set_ne (by omega), List.getElem?_set_self (by omega)]
      rw [Nat.mod_mod_of_dvd _ (by norm_num)]
    · rw [List.getElem?_set_self (by simp; omega)]
      rw [Nat.mod_eq_of_lt hP, Nat.shiftRight_eq_div_pow]
      norm_num
      omega
  · intro h24
    rw [h24] at hlen ⊢
    rw [setPixelBytes24 fb.width fb.height fb.lineLength data xn yn c hx hy (by omega)]
    refine ⟨?_, ?_, ?_⟩
    · rw [List.getElem?_set_ne (by omega), List.getElem?_set_ne (by omega),
        List.getElem?_set_self (by omega)]
      rw [Nat.mod_eq_of_lt hb8]
    · rw [List.getElem?_set_ne (by omega), List.getElem?_set_self (by simp; omega)]
      rw [Nat.mod_eq_of_lt hg8]
    · rw [List.getElem?_set_self (by simp; omega)]
      rw [Nat.mod_eq_of_lt hr8]
  · intro h32
    rw [h32] at hlen ⊢
    rw [setPixelBytes32 fb.width fb.height fb.lineLength data xn yn c hx hy (by omega)]
    refine ⟨?_, ?_, ?_, ?_⟩
    · rw [List.getElem?_set_ne (by omega), List.getElem?_set_ne (by omega),
        List.getElem?_set_ne (by omega), List.getElem?_set_self (by omega)]
      rw [Nat.mod_eq_of_lt hb8]
    · rw [List.getElem?_set_ne (by omega), List.getElem?_set_ne (by omega),
        List.getElem?_set_self (by simp; omega)]
      rw [Nat.mod_eq_of_lt hg8]
    · rw [List.getElem?_set_ne (by omega), List.getElem?_set_self (by simp; omega)]
      rw [Nat.mod_eq_of_lt hr8]
    · rw [List.getElem?_set_self (by simp; omega)]

/-- C1 witness. -/
theorem c1_witness :
    ((⟨some (List.replicate 8 9), 2, 1, 32, 8, false, true⟩ : FrameBuffer).SetPixel
      ((1 : Nat) : Int) ((0 : Nat) : Int) ⟨65535, 32896, 4660, 65535⟩).fbData.isSome = true := by
  obtain ⟨nd, hnd, -, -, -⟩ :=
    c1_setPixel_encoding ⟨some (List.replicate 8 9), 2, 1, 32, 8, false, true⟩
      (List.replicate 8 9) 1 0 ⟨65535, 32896, 4660, 65535⟩ rfl rfl (by decide) (by decide)
      (by decide) (by decide) (by decide) (by decide)
  rw [hnd]
  rfl

/-- C1 (counterexample): at 32 bpp, `SetPixel` of the fully opaque white
color writes 0 — not an opaque 255 — into the alpha byte at offset+3. -/
theorem c1_counterexample :
    ((⟨some (List.replicate 8 170), 2, 1, 32, 8, false, true⟩ : FrameBuffer).SetPixel 0 0
        ⟨65535, 65535, 65535, 65535⟩).fbData =
      some [255, 255, 255, 0, 170, 170, 170, 170] ∧ (0 : Nat) ≠ 255 := by
  constructor
  · decide
  · decide

/-! ## C10: SetPixel frame condition -/

/-- C10: for an open framebuffer and an in-bounds coordinate, `SetPixel`
leaves every handle field unchanged, preserves the buffer length, and
modifies at most the `bpp/8` consecutive bytes starting at
`y*rowStride + x*(bpp/8)`; for a bit depth other than 16/24/32 it writes
nothing at all. -/
theorem c10_setPixel_frame (fb : FrameBuffer) (data : List Nat) (xn yn : Nat)
    (c : GoColor)
    (hclosed : fb.closed = false) (hdata : fb.fbData = some data)
    (_hx : xn < fb.width) (_hy : yn < fb.height) :
    ((fb.SetPixel (xn : Int) (yn : Int) c).width = fb.width ∧
     (fb.SetPixel (xn : Int) (yn : Int) c).height = fb.height ∧
     (fb.SetPixel (xn : Int) (yn : Int) c).bpp = fb.bpp ∧
     (fb.SetPixel (xn : Int) (yn : Int) c).lineLength = fb.lineLength ∧
     (fb.SetPixel (xn : Int) (yn : Int) c).closed = fb.closed) ∧
    (∃ newData, (fb.SetPixel (xn : Int) (yn : Int) c).fbData = some newData ∧
      newData.length = data.length ∧
      ∀ i : Nat, (i < yn * fb.lineLength + xn * (fb.bpp / 8) ∨
          yn * fb.lineLength + xn * (fb.bpp / 8) + fb.bpp / 8 ≤ i) →
        newData[i]? = data[i]?) ∧
    (fb.bpp ≠ 16 → fb.bpp ≠ 24 → fb.bpp ≠ 32 →
      fb.SetPixel (xn : Int) (yn : Int) c = fb) := by
  rw [SetPixel_open fb data _ _ c hclosed hdata]
  refine ⟨⟨rfl, rfl, rfl, rfl, rfl⟩, ?_, ?_⟩
  · exact ⟨setPixelBytes fb.width fb.height fb.bpp fb.lineLength data (xn : Int) (yn : Int) c,
      rfl, setPixelBytes_length _ _ _ _ _ _ _ _,
      fun i hi => setPixelBytes_frame _ _ _ _ _ _ _ _ _ hi⟩
  · intro h16 h24 h32
    rw [setPixelBytes_other _ _ _ _ _ _ _ _ h16 h24 h32]
    exact fb_eta fb data hdata

/-- C10 witness. -/
theorem c10_witness :
    ((⟨some (List.replicate 8 5), 2, 1, 16, 4, false, true⟩ : FrameBuffer).SetPixel
      ((0 : Nat) : Int) ((0 : Nat) : Int) ⟨0, 0, 0, 0⟩).width = 2 :=
  (c10_setPixel_frame ⟨some (List.replicate 8 5), 2, 1, 16, 4, false, true⟩
    (List.replicate 8 5) 0 0 ⟨0, 0, 0, 0⟩ rfl rfl (by decide) (by decide)).1.1

end GoFbConsole
